import Mathlib

/-!
Shallow embedding of the chat client in `app.js` (taipei_marathon repository).

The embedding models the JavaScript values the client manipulates
(`JSValue`), the reply-normalization routine `extractBotReply`
(app.js lines 123-177), and the send lifecycle `sendText`
(app.js lines 182-289).  DOM rendering (`render`, `scrollToBottom`) only
repaints the screen from the message list and is not part of the state;
`setThinking` is modelled by the boolean `thinking` field of the state.
-/

namespace ChatApp

/-- Model of the JavaScript values that can flow through the client:
JSON-parseable data plus `undefined`.  Numbers are modelled as integers
(the payloads in play are never fractional); host-level exotica such as
objects with throwing getters or custom `toString` cannot be produced by
`JSON.parse` and are outside the model.  Real JS objects have unique keys;
`jobj` lists are read with first-match lookup, which agrees on such
objects. -/
inductive JSValue where
  | jstr (s : String)
  | jnum (n : Int)
  | jbool (b : Bool)
  | jnull
  | jundefined
  | jobj (entries : List (String × JSValue))
  | jarr (elems : List JSValue)
deriving Repr

/-- Whitespace class of JavaScript `String.prototype.trim`
(ASCII whitespace, NBSP and the BOM; the remaining Unicode `Zs`
code points never occur in the texts in play). -/
def jsWhitespace (c : Char) : Bool :=
  c == ' ' || c == '\t' || c == '\n' || c == '\r' ||
  c == '\x0b' || c == '\x0c' || c == '\xa0' || c == Char.ofNat 0xFEFF

/-- Model of JavaScript `s.trim()`. -/
def jsTrim (s : String) : String :=
  String.mk (((s.data.dropWhile jsWhitespace).reverse.dropWhile jsWhitespace).reverse)

/-- Model of the JavaScript `typeof` operator on `JSValue`
(note `typeof null` is `"object"`). -/
def jsTypeOf : JSValue → String
  | .jstr _ => "string"
  | .jnum _ => "number"
  | .jbool _ => "boolean"
  | .jnull => "object"
  | .jundefined => "undefined"
  | .jobj _ => "object"
  | .jarr _ => "object"

/-- Model of JavaScript truthiness (`!!v`). -/
def jsTruthy : JSValue → Bool
  | .jstr s => s != ""
  | .jnum n => n != 0
  | .jbool b => b
  | .jnull => false
  | .jundefined => false
  | .jobj _ => true
  | .jarr _ => true

/-- Model of the JavaScript `in` operator (`k in v`) for the object and
array values that reach it in the source (primitives never do: they are
filtered by the `typeof` guard first).  Arrays own their index properties
and `length`. -/
def jsHasProp (v : JSValue) (k : String) : Bool :=
  match v with
  | .jobj entries => entries.any (fun e => e.1 == k)
  | .jarr elems => k == "length" || (List.range elems.length).any (fun i => toString i == k)
  | _ => false

/-- Model of JavaScript property access `v[k]` (yields `undefined` when
absent; on primitives boxing makes the named properties in play
`undefined`). -/
def jsGetProp (v : JSValue) (k : String) : JSValue :=
  match v with
  | .jobj entries =>
    match entries.find? (fun e => e.1 == k) with
    | some e => e.2
    | none => .jundefined
  | .jarr elems =>
    if k == "length" then .jnum elems.length
    else
      match (List.range elems.length).find? (fun i => toString i == k) with
      | some i => elems.getD i .jundefined
      | none => .jundefined
  | _ => .jundefined

/-- Model of `Object.keys` (own enumerable keys; array and string indices,
excluding the non-enumerable `length`). -/
def jsOwnKeys : JSValue → List String
  | .jobj entries => entries.map (fun e => e.1)
  | .jarr elems => (List.range elems.length).map toString
  | .jstr s => (List.range s.length).map toString
  | _ => []

/-- Model of JavaScript `a && b` (value-returning short-circuit). -/
def jsAnd (a b : JSValue) : JSValue := if jsTruthy a then b else a

/-- Model of JavaScript `a || b` (value-returning short-circuit). -/
def jsOr (a b : JSValue) : JSValue := if jsTruthy a then a else b

/-- Model of JavaScript `a ?? b` (nullish coalescing). -/
def jsNullish (a b : JSValue) : JSValue :=
  match a with
  | .jnull => b
  | .jundefined => b
  | v => v

mutual

/-- Model of JavaScript `String(v)` for the model values (plain objects
stringify to `[object Object]`, arrays join their elements with commas). -/
def jsToString : JSValue → String
  | .jstr s => s
  | .jnum n => toString n
  | .jbool b => if b then "true" else "false"
  | .jnull => "null"
  | .jundefined => "undefined"
  | .jobj _ => "[object Object]"
  | .jarr elems => jsArrayJoin elems

/-- `Array.prototype.join` with the default comma separator
(`null` and `undefined` elements become empty strings). -/
def jsArrayJoin : List JSValue → String
  | [] => ""
  | x :: rest =>
    let head :=
      match x with
      | .jnull => ""
      | .jundefined => ""
      | v => jsToString v
    match rest with
    | [] => head
    | _ => head ++ "," ++ jsArrayJoin rest

end

/-- Hexadecimal digit character (lowercase), as produced by
`JSON.stringify` escapes. -/
def hexDigitChar (n : Nat) : Char :=
  if n < 10 then Char.ofNat (48 + n) else Char.ofNat (87 + n)

/-- JSON string escaping as performed by `JSON.stringify`. -/
def jsonEscapeChar (c : Char) : String :=
  if c = '"' then "\\\""
  else if c = '\\' then "\\\\"
  else if c = '\n' then "\\n"
  else if c = '\r' then "\\r"
  else if c = '\t' then "\\t"
  else if c = '\x08' then "\\b"
  else if c = '\x0c' then "\\f"
  else if c.toNat < 32 then "\\u00" ++ String.mk [hexDigitChar (c.toNat / 16), hexDigitChar (c.toNat % 16)]
  else String.mk [c]

/-- Quoted JSON string literal. -/
def jsonQuote (s : String) : String :=
  "\"" ++ String.join (s.data.map jsonEscapeChar) ++ "\""

/-- Indentation produced by `JSON.stringify(_, null, 2)` at depth `d`. -/
def jsonIndent (d : Nat) : String := String.mk (List.replicate (2 * d) ' ')

mutual

/-- Model of `JSON.stringify(v, null, 2)` at nesting depth `d`
(the call in `extractBotReply` is at depth 0).  Object properties whose
value is `undefined` are skipped; `undefined` array elements serialize as
`null`.  A top-level `undefined` makes `JSON.stringify` return the value
`undefined` rather than a string; that case is unreachable from the one
call site, which only passes non-null objects, and is rendered here by
its string coercion. -/
def jsonSer (d : Nat) : JSValue → String
  | .jstr s => jsonQuote s
  | .jnum n => toString n
  | .jbool b => if b then "true" else "false"
  | .jnull => "null"
  | .jundefined => "undefined"
  | .jarr [] => "[]"
  | .jarr elems => "[\n" ++ jsonSerArr (d + 1) elems ++ "\n" ++ jsonIndent d ++ "]"
  | .jobj entries =>
    let parts := jsonSerObj (d + 1) entries
    if parts.isEmpty then "\x7b\x7d"
    else "\x7b\n" ++ String.intercalate ",\n" parts ++ "\n" ++ jsonIndent d ++ "\x7d"

/-- Array elements of `JSON.stringify(_, null, 2)`, one per line. -/
def jsonSerArr (d : Nat) : List JSValue → String
  | [] => ""
  | x :: rest =>
    let head :=
      jsonIndent d ++
        (match x with
         | .jundefined => "null"
         | v => jsonSer d v)
    match rest with
    | [] => head
    | _ => head ++ ",\n" ++ jsonSerArr d rest

/-- Serialized `"key": value` lines of an object for
`JSON.stringify(_, null, 2)`; properties with `undefined` values are
dropped. -/
def jsonSerObj (d : Nat) : List (String × JSValue) → List String
  | [] => []
  | (k, v) :: rest =>
    match v with
    | .jundefined => jsonSerObj d rest
    | v => (jsonIndent d ++ jsonQuote k ++ ": " ++ jsonSer d v) :: jsonSerObj d rest

end

/-- Embedding of `extractBotReply` (app.js lines 123-177) in an exception
monad.  Every JavaScript operation in the body is total on the model
values except `JSON.stringify`, which can throw (e.g. on circular data);
it is therefore taken as a parameter `stringify` that may fail, and the
source's `try { ... } catch { ... }` around it becomes the explicit
`Except` match in the final step.  The `raw` argument is accepted, as in
the source, but never read. -/
def extractBotReplyE (stringify : JSValue → Except String String)
    (data : JSValue) (raw : String) : Except String String :=
  -- 1. data is a plain string
  match data with
  | .jstr s =>
    let trimmed := jsTrim s
    .ok (if trimmed = "" then "請換個說法，謝謝您" else trimmed)
  | _ =>
    -- 2. data is not an object, or is null/undefined
    if !(jsTruthy data) || jsTypeOf data != "object" then
      .ok "請換個說法，謝謝您"
    else
      -- 3. object data: prefer the text field, then the message field
      let textContent : JSValue :=
        if jsHasProp data "text" then jsGetProp data "text"
        else if jsHasProp data "message" then jsGetProp data "message"
        else .jnull
      match textContent with
      | .jnull =>
        -- 4. no text/message field: empty object (ignoring clientId)?
        let meaningfulKeys := (jsOwnKeys data).filter (fun k => k != "clientId")
        if meaningfulKeys.isEmpty then
          .ok "網路不穩定，請再試一次"
        -- 5. other fields but no text/message: surface error fields first
        else if jsTruthy (jsGetProp data "error") then
          .ok (jsToString (jsGetProp data "error"))
        else if jsTruthy (jsGetProp data "errorRaw") then
          .ok "伺服器回應格式錯誤，請稍後再試"
        else
          -- 6. fall back to a JSON dump of data, guarded by try/catch
          match stringify data with
          | .ok s => .ok s
          | .error _ => .ok "系統回應異常，請稍後再試"
      | found =>
        let processed := jsTrim (jsToString found)
        .ok (if processed = "" then "請換個說法，謝謝您" else processed)

/-- The `extractBotReply` of the source: the exception-monad embedding run
with the actual `JSON.stringify(_, null, 2)`, which is total on the
model's acyclic values. -/
def extractBotReply (data : JSValue) (raw : String) : String :=
  match extractBotReplyE (fun v => .ok (jsonSer 0 v)) data raw with
  | .ok s => s
  | .error s => s

/-- Message role (`'user' | 'assistant'` in the source). -/
inductive Role where
  | user
  | assistant
deriving DecidableEq, Repr

/-- A chat message as pushed onto the `messages` array
(`{id, role, text, ts}`). -/
structure ChatMessage where
  id : String
  role : Role
  text : String
  ts : Int
deriving Repr

/-- The mutable client state touched by `sendText`: the `messages` array,
the `isSending` flag, the input box value, and the thinking indicator
(shown/hidden by `setThinking`, which also toggles the disabled state of
the input controls in lockstep). -/
structure AppState where
  messages : List ChatMessage
  isSending : Bool
  inputValue : String
  thinking : Bool
deriving Repr

/-- Fresh identifiers and timestamps consumed by one `sendText` run: the
source draws them from `Math.random` (`uid()`) and `Date.now()`, which the
embedding supplies as an environment. -/
structure SendEnv where
  uidUser : String
  uidBot : String
  tsUser : Int
  tsBot : Int
deriving Repr

/-- An outbound HTTP request as assembled by the `fetch` call in
`sendText` (app.js lines 211-222).  The body is the object handed to
`JSON.stringify`. -/
structure ChatRequest where
  url : String
  method : String
  headers : List (String × String)
  bodyJson : JSValue
deriving Repr

/-- Outcome of the awaited `fetch`: either the promise rejects (a
network-level failure; `errMsg` is the display form the catch block
computes from the thrown error), or a response arrives with a status,
status text and body text. -/
inductive FetchOutcome where
  | failure (errMsg : String)
  | response (status : Nat) (statusText : String) (body : String)
deriving Repr

/-- Backend origin (app.js line 22). -/
def API_BASE : String := "https://taipei-marathon-server.onrender.com"

/-- The `api` helper (app.js line 23). -/
def api (p : String) : String := API_BASE ++ p

/-- The `res.ok` property: status in the 2xx range. -/
def resOk (status : Nat) : Bool := decide (200 ≤ status ∧ status ≤ 299)

/-- Synchronous prefix of `sendText` (app.js lines 182-222), up to and
including the dispatch of the `fetch`.  Returns the updated state and the
issued request, or `none` when the call bails out early (duplicate send,
or empty trimmed content).  `textArg` is the optional `text` argument;
`clientId` is the module-level client identifier. -/
def sendTextStart (clientId : String) (textArg : Option String) (env : SendEnv)
    (s : AppState) : AppState × Option ChatRequest :=
  if s.isSending then
    (s, none)
  else
    let content := jsTrim (textArg.getD s.inputValue)
    if content = "" then
      (s, none)
    else
      let userMsg : ChatMessage := ⟨env.uidUser, Role.user, content, env.tsUser⟩
      let s1 : AppState :=
        { s with
          isSending := true
          messages := s.messages ++ [userMsg]
          inputValue := ""
          thinking := true }
      let req : ChatRequest :=
        { url := api "/api/chat"
          method := "POST"
          headers := [("Content-Type", "application/json"), ("X-Client-Id", clientId)]
          bodyJson := .jobj [("text", .jstr content), ("clientId", .jstr clientId),
                             ("language", .jstr "繁體中文")] }
      (s1, some req)

/-- The catch block of `sendText` (app.js lines 265-283): hide the
thinking indicator, pick the friendly text (the offline notice wins
whenever `navigator.onLine` is false), and push one assistant message. -/
def sendTextCatch (onLine : Bool) (env : SendEnv) (errMsg : String)
    (s : AppState) : AppState :=
  let friendly :=
    if !onLine then "目前處於離線狀態，請檢查網路連線後再試一次" else errMsg
  { s with
    thinking := false
    messages := s.messages ++ [⟨env.uidBot, Role.assistant, friendly, env.tsBot⟩] }

/-- Continuation of `sendText` after the awaited `fetch`
(app.js lines 224-289), through the `finally` block.  `parseJson` models
`JSON.parse`, with `none` standing for a parse exception. -/
def sendTextFinish (parseJson : String → Option JSValue) (onLine : Bool)
    (env : SendEnv) (outcome : FetchOutcome) (s : AppState) : AppState :=
  let afterTry : AppState :=
    match outcome with
    | .failure errMsg => sendTextCatch onLine env errMsg s
    | .response status statusText body =>
      let raw := body
      let data : JSValue :=
        if raw = "" then .jobj []
        else
          match parseJson raw with
          | some v => v
          | none => .jobj [("errorRaw", .jstr raw)]
      if !(resOk status) then
        let errMsg :=
          if status == 502 || status == 404 then
            "網路不穩定，請再試一次!"
          else
            let serverMsg :=
              jsNullish
                (jsAnd data
                  (jsOr (jsGetProp data "error")
                    (jsOr (jsGetProp data "body") (jsGetProp data "message"))))
                (.jstr raw)
            "HTTP " ++ toString status ++ " " ++ statusText ++ " — " ++ jsToString serverMsg
        sendTextCatch onLine env errMsg s
      else
        let replyText := extractBotReply data raw
        let botMsg : ChatMessage := ⟨env.uidBot, Role.assistant, replyText, env.tsBot⟩
        { s with
          messages := s.messages ++ [botMsg]
          thinking := false }
  { afterTry with isSending := false }

/-- The whole of `sendText` (app.js lines 182-289) for one resolved fetch
outcome: the synchronous prefix followed, when a request was dispatched,
by the continuation.  The second component lists the network requests the
call issued. -/
def sendText (clientId : String) (parseJson : String → Option JSValue)
    (onLine : Bool) (textArg : Option String) (outcome : FetchOutcome)
    (env : SendEnv) (s : AppState) : AppState × List ChatRequest :=
  match sendTextStart clientId textArg env s with
  | (s1, none) => (s1, [])
  | (s1, some req) => (sendTextFinish parseJson onLine env outcome s1, [req])

/-! Shared lemmas about the send lifecycle. -/

/-- When no send is in flight and the trimmed content is non-empty,
`sendTextStart` pushes the user message, locks the flag, clears the
input, shows the thinking indicator, and dispatches the one request. -/
theorem sendTextStart_run (clientId : String) (textArg : Option String)
    (env : SendEnv) (s : AppState) (hs : s.isSending = false)
    (hc : jsTrim (textArg.getD s.inputValue) ≠ "") :
    sendTextStart clientId textArg env s =
      ({ s with
         isSending := true
         messages := s.messages ++
           [⟨env.uidUser, Role.user, jsTrim (textArg.getD s.inputValue), env.tsUser⟩]
         inputValue := ""
         thinking := true },
       some { url := api "/api/chat"
              method := "POST"
              headers := [("Content-Type", "application/json"), ("X-Client-Id", clientId)]
              bodyJson := .jobj [("text", .jstr (jsTrim (textArg.getD s.inputValue))),
                                 ("clientId", .jstr clientId),
                                 ("language", .jstr "繁體中文")] }) := by
  unfold sendTextStart
  rw [hs]
  simp [hc]

/-- The `finally` block always resets the send flag. -/
theorem sendTextFinish_isSending (parseJson : String → Option JSValue)
    (onLine : Bool) (env : SendEnv) (outcome : FetchOutcome) (s : AppState) :
    (sendTextFinish parseJson onLine env outcome s).isSending = false := rfl

/-- The continuation after the fetch appends exactly one assistant
message, leaves the rest of the state (other than the flags) alone, and
hides the thinking indicator, on every path: success, HTTP error, parse
error, or network failure. -/
theorem sendTextFinish_messages (parseJson : String → Option JSValue)
    (onLine : Bool) (env : SendEnv) (outcome : FetchOutcome) (s : AppState) :
    ∃ t, (sendTextFinish parseJson onLine env outcome s).messages =
        s.messages ++ [⟨env.uidBot, Role.assistant, t, env.tsBot⟩] ∧
      (sendTextFinish parseJson onLine env outcome s).thinking = false ∧
      (sendTextFinish parseJson onLine env outcome s).inputValue = s.inputValue := by
  cases outcome with
  | failure errMsg => exact ⟨_, rfl, rfl, rfl⟩
  | response status statusText body =>
    simp only [sendTextFinish, sendTextCatch]
    split
    · exact ⟨_, rfl, rfl, rfl⟩
    · exact ⟨_, rfl, rfl, rfl⟩

/-! Claim theorems. -/

/-- C1: every call to `sendText` that reaches the network stage (the
in-flight flag was false and the trimmed effective text was non-empty)
appends exactly one assistant-role message by the time it completes —
never zero, never more than one — whatever the outcome (success, HTTP
error, parse error, or network failure), and the busy indicator is
cleared at the end in every case. -/
theorem sendText_exactly_one_assistant (clientId : String)
    (parseJson : String → Option JSValue) (onLine : Bool)
    (textArg : Option String) (outcome : FetchOutcome) (env : SendEnv)
    (s : AppState) (hs : s.isSending = false)
    (hc : jsTrim (textArg.getD s.inputValue) ≠ "") :
    ∃ t,
      (sendText clientId parseJson onLine textArg outcome env s).1.messages =
        s.messages ++
          [⟨env.uidUser, Role.user, jsTrim (textArg.getD s.inputValue), env.tsUser⟩,
           ⟨env.uidBot, Role.assistant, t, env.tsBot⟩] ∧
      ((sendText clientId parseJson onLine textArg outcome env s).1.messages.filter
          (fun m => m.role == Role.assistant)).length =
        (s.messages.filter (fun m => m.role == Role.assistant)).length + 1 ∧
      (sendText clientId parseJson onLine textArg outcome env s).1.thinking = false := by
  have hstart := sendTextStart_run clientId textArg env s hs hc
  obtain ⟨t, hm, hth, _⟩ :=
    sendTextFinish_messages parseJson onLine env outcome (sendTextStart clientId textArg env s).1
  rw [hstart] at hm hth
  refine ⟨t, ?_, ?_, ?_⟩ <;>
    simp only [sendText, hstart] <;>
    simp only [hm, hth] <;>
    simp [List.filter_append]

/-- C1 witness. -/
theorem sendText_exactly_one_assistant_witness :
    (AppState.isSending ⟨[], false, "", false⟩ = false) ∧
    jsTrim ((some "hi").getD "") ≠ "" ∧
    ∃ t,
      (sendText "cid" (fun _ => none) true (some "hi")
          (.response 200 "OK" "pong") ⟨"u1", "b1", 0, 1⟩ ⟨[], false, "", false⟩).1.messages =
        ([] : List ChatMessage) ++
          [⟨"u1", Role.user, jsTrim ((some "hi").getD ""), 0⟩,
           ⟨"b1", Role.assistant, t, 1⟩] ∧
      ((sendText "cid" (fun _ => none) true (some "hi")
          (.response 200 "OK" "pong") ⟨"u1", "b1", 0, 1⟩ ⟨[], false, "", false⟩).1.messages.filter
          (fun m => m.role == Role.assistant)).length =
        (([] : List ChatMessage).filter (fun m => m.role == Role.assistant)).length + 1 ∧
      (sendText "cid" (fun _ => none) true (some "hi")
          (.response 200 "OK" "pong") ⟨"u1", "b1", 0, 1⟩ ⟨[], false, "", false⟩).1.thinking = false :=
  ⟨rfl, by decide,
    sendText_exactly_one_assistant "cid" (fun _ => none) true (some "hi")
      (.response 200 "OK" "pong") ⟨"u1", "b1", 0, 1⟩ ⟨[], false, "", false⟩ rfl (by decide)⟩

/-- C2: a call made while a previous send is in flight returns
immediately: no message, no state change, no request.  Consequently two
calls before the first resolves issue exactly one request (the first
call's `sendTextStart` dispatches one; the second call, made in the
in-flight window, returns the state unchanged with none), and the
`isSending` flag is true exactly while that request is outstanding:
false before, true from dispatch, false again after completion. -/
theorem sendText_inflight_noop (clientId clientId2 : String)
    (parseJson : String → Option JSValue) (onLine : Bool)
    (textArg textArg2 : Option String) (outcome : FetchOutcome)
    (env env2 : SendEnv) (s : AppState) :
    (s.isSending = true →
      sendText clientId parseJson onLine textArg outcome env s = (s, [])) ∧
    (s.isSending = false → jsTrim (textArg.getD s.inputValue) ≠ "" →
      (sendTextStart clientId textArg env s).2.isSome = true ∧
      (sendTextStart clientId textArg env s).1.isSending = true ∧
      sendText clientId2 parseJson onLine textArg2 outcome env2
          (sendTextStart clientId textArg env s).1 =
        ((sendTextStart clientId textArg env s).1, []) ∧
      (sendTextFinish parseJson onLine env outcome
          (sendTextStart clientId textArg env s).1).isSending = false) := by
  constructor
  · intro h
    simp [sendText, sendTextStart, h]
  · intro hs hc
    have hstart := sendTextStart_run clientId textArg env s hs hc
    refine ⟨by rw [hstart]; try rfl, by rw [hstart]; try rfl, ?_,
      sendTextFinish_isSending _ _ _ _ _⟩
    rw [hstart]
    simp [sendText, sendTextStart]

/-- C2 witness. -/
theorem sendText_inflight_noop_witness :
    (AppState.isSending ⟨[], false, "hi", false⟩ = false) ∧
    jsTrim ((none : Option String).getD "hi") ≠ "" ∧
    ((sendTextStart "cid" none ⟨"u1", "b1", 0, 1⟩ ⟨[], false, "hi", false⟩).2.isSome = true ∧
     (sendTextStart "cid" none ⟨"u1", "b1", 0, 1⟩ ⟨[], false, "hi", false⟩).1.isSending = true ∧
     sendText "cid2" (fun _ => none) true (some "again") (.response 200 "OK" "pong")
         ⟨"u2", "b2", 2, 3⟩
         (sendTextStart "cid" none ⟨"u1", "b1", 0, 1⟩ ⟨[], false, "hi", false⟩).1 =
       ((sendTextStart "cid" none ⟨"u1", "b1", 0, 1⟩ ⟨[], false, "hi", false⟩).1, []) ∧
     (sendTextFinish (fun _ => none) true ⟨"u1", "b1", 0, 1⟩ (.response 200 "OK" "pong")
         (sendTextStart "cid" none ⟨"u1", "b1", 0, 1⟩ ⟨[], false, "hi", false⟩).1).isSending =
       false) :=
  ⟨rfl, by decide,
    (sendText_inflight_noop "cid" "cid2" (fun _ => none) true none (some "again")
        (.response 200 "OK" "pong") ⟨"u1", "b1", 0, 1⟩ ⟨"u2", "b2", 2, 3⟩
        ⟨[], false, "hi", false⟩).2 rfl (by decide)⟩

/-- C7: a call whose effective text (argument if given, else the input
value) trims to the empty string is a complete no-op: state unchanged
(no message, no flag or indicator change) and no request issued. -/
theorem sendText_empty_noop (clientId : String)
    (parseJson : String → Option JSValue) (onLine : Bool)
    (textArg : Option String) (outcome : FetchOutcome) (env : SendEnv)
    (s : AppState) (hc : jsTrim (textArg.getD s.inputValue) = "") :
    sendText clientId parseJson onLine textArg outcome env s = (s, []) := by
  by_cases hs : s.isSending <;>
    simp [sendText, sendTextStart, hs, hc]

/-- C7 witness. -/
theorem sendText_empty_noop_witness :
    jsTrim ((some "   ").getD "") = "" ∧
    sendText "cid" (fun _ => none) true (some "   ") (.response 200 "OK" "pong")
        ⟨"u1", "b1", 0, 1⟩ ⟨[], false, "typed", false⟩ =
      (⟨[], false, "typed", false⟩, []) :=
  ⟨by decide,
    sendText_empty_noop "cid" (fun _ => none) true (some "   ")
      (.response 200 "OK" "pong") ⟨"u1", "b1", 0, 1⟩ ⟨[], false, "typed", false⟩
      (by decide)⟩

/-- C3 counterexample: a send answered with HTTP 404 while the browser is
online appends the thrown error's text `"網路不穩定，請再試一次!"` — with
a trailing exclamation mark — which is not the rule-5 normalization text
`"網路不穩定，請再試一次"` the claim names. -/
theorem sendText_404_text_differs_from_rule5 :
    (sendText "cid" (fun _ => none) true (some "hi")
        (.response 404 "Not Found" "<html>down</html>") ⟨"u1", "b1", 0, 1⟩
        ⟨[], false, "", false⟩).1.messages.map (fun m => m.text) =
      ["hi", "網路不穩定，請再試一次!"] ∧
    ("網路不穩定，請再試一次!" : String) ≠ "網路不穩定，請再試一次" := by
  constructor
  · rfl
  · decide

/-- C3 (amended): for every send answered with HTTP status 502 or 404
while the browser is online, the appended assistant message is the fixed
text `"網路不穩定，請再試一次!"` (the rule-5 normalization text plus a
trailing exclamation mark), verbatim and regardless of the response body
and status text. -/
theorem sendText_502_404_fixed_message (clientId : String)
    (parseJson : String → Option JSValue) (textArg : Option String)
    (status : Nat) (statusText body : String) (env : SendEnv) (s : AppState)
    (hs : s.isSending = false)
    (hc : jsTrim (textArg.getD s.inputValue) ≠ "")
    (hstat : status = 502 ∨ status = 404) :
    (sendText clientId parseJson true textArg
        (.response status statusText body) env s).1.messages =
      s.messages ++
        [⟨env.uidUser, Role.user, jsTrim (textArg.getD s.inputValue), env.tsUser⟩,
         ⟨env.uidBot, Role.assistant, "網路不穩定，請再試一次!", env.tsBot⟩] := by
  have hstart := sendTextStart_run clientId textArg env s hs hc
  simp only [sendText, hstart]
  rcases hstat with h | h <;> subst h <;>
    simp [sendTextFinish, sendTextCatch, resOk]

/-- C3 witness (for the amended claim). -/
theorem sendText_502_404_fixed_message_witness :
    (AppState.isSending ⟨[], false, "", false⟩ = false) ∧
    jsTrim ((some "hi").getD "") ≠ "" ∧ ((502 : Nat) = 502 ∨ (502 : Nat) = 404) ∧
    (sendText "cid" (fun _ => some (.jobj [("error", .jstr "gateway")])) true (some "hi")
        (.response 502 "Bad Gateway" "ignored") ⟨"u1", "b1", 0, 1⟩
        ⟨[], false, "", false⟩).1.messages =
      ([] : List ChatMessage) ++
        [⟨"u1", Role.user, jsTrim ((some "hi").getD ""), 0⟩,
         ⟨"b1", Role.assistant, "網路不穩定，請再試一次!", 1⟩] :=
  ⟨rfl, by decide, Or.inl rfl,
    sendText_502_404_fixed_message "cid" (fun _ => some (.jobj [("error", .jstr "gateway")]))
      (some "hi") 502 "Bad Gateway" "ignored" ⟨"u1", "b1", 0, 1⟩ ⟨[], false, "", false⟩
      rfl (by decide) (Or.inl rfl)⟩

/-- C6 counterexample: the request dispatched for a concrete send carries
`language` equal to `"繁體中文"`, not `"zh-Hant"` as the claim states. -/
theorem sendText_language_not_zhHant :
    ((sendTextStart "cid" (some "hi") ⟨"u1", "b1", 0, 1⟩
        ⟨[], false, "", false⟩).2.map
          (fun r => jsToString (jsGetProp r.bodyJson "language"))) =
      some "繁體中文" ∧
    ("繁體中文" : String) ≠ "zh-Hant" := by
  constructor
  · rfl
  · decide

/-- C6 (amended): every HTTP request issued by `sendText` is a POST to
`{API_BASE}/api/chat` with headers `Content-Type: application/json` and
`X-Client-Id` set to the client identifier, and a JSON body consisting
exactly of the fields `text` (the trimmed content), `clientId`, and
`language` equal to the string `"繁體中文"`. -/
theorem sendText_request_shape (clientId : String)
    (parseJson : String → Option JSValue) (onLine : Bool)
    (textArg : Option String) (outcome : FetchOutcome) (env : SendEnv)
    (s : AppState) (req : ChatRequest)
    (hmem : req ∈ (sendText clientId parseJson onLine textArg outcome env s).2) :
    req = { url := api "/api/chat"
            method := "POST"
            headers := [("Content-Type", "application/json"), ("X-Client-Id", clientId)]
            bodyJson := .jobj [("text", .jstr (jsTrim (textArg.getD s.inputValue))),
                               ("clientId", .jstr clientId),
                               ("language", .jstr "繁體中文")] } := by
  by_cases hs : s.isSending
  · simp [sendText, sendTextStart, hs] at hmem
  · by_cases hc : jsTrim (textArg.getD s.inputValue) = ""
    · simp [sendText, sendTextStart, hs, hc] at hmem
    · have hstart := sendTextStart_run clientId textArg env s (by simpa using hs) hc
      simp only [sendText, hstart, List.mem_singleton] at hmem
      exact hmem

/-- C6 witness (for the amended claim). -/
theorem sendText_request_shape_witness :
    ({ url := api "/api/chat"
       method := "POST"
       headers := [("Content-Type", "application/json"), ("X-Client-Id", "cid")]
       bodyJson := .jobj [("text", .jstr (jsTrim ((some "hi").getD ""))),
                          ("clientId", .jstr "cid"),
                          ("language", .jstr "繁體中文")] } : ChatRequest) ∈
      (sendText "cid" (fun _ => none) true (some "hi") (.response 200 "OK" "pong")
        ⟨"u1", "b1", 0, 1⟩ ⟨[], false, "", false⟩).2 ∧
    ({ url := api "/api/chat"
       method := "POST"
       headers := [("Content-Type", "application/json"), ("X-Client-Id", "cid")]
       bodyJson := .jobj [("text", .jstr (jsTrim ((some "hi").getD ""))),
                          ("clientId", .jstr "cid"),
                          ("language", .jstr "繁體中文")] } : ChatRequest) =
      { url := api "/api/chat"
        method := "POST"
        headers := [("Content-Type", "application/json"), ("X-Client-Id", "cid")]
        bodyJson := .jobj [("text", .jstr (jsTrim ((some "hi").getD ""))),
                           ("clientId", .jstr "cid"),
                           ("language", .jstr "繁體中文")] } :=
  ⟨List.mem_singleton.mpr rfl,
    sendText_request_shape "cid" (fun _ => none) true (some "hi") (.response 200 "OK" "pong")
      ⟨"u1", "b1", 0, 1⟩ ⟨[], false, "", false⟩ _ (List.mem_singleton.mpr rfl)⟩

/-- A fetch outcome the catch block of `sendText` will see: either the
promise rejected, or the response status is outside the 2xx range (the
code then throws). -/
def fetchFailed : FetchOutcome → Bool
  | .failure _ => true
  | .response status _ _ => !(resOk status)

/-- C10: when any send fails — a rejected fetch or any non-2xx status,
404 and 502 included — and the browser reports no connectivity at the
time the error is handled, the appended assistant message is the fixed
offline text, taking precedence over every other error message. -/
theorem sendText_offline_message (clientId : String)
    (parseJson : String → Option JSValue) (textArg : Option String)
    (outcome : FetchOutcome) (env : SendEnv) (s : AppState)
    (hs : s.isSending = false)
    (hc : jsTrim (textArg.getD s.inputValue) ≠ "")
    (hfail : fetchFailed outcome = true) :
    (sendText clientId parseJson false textArg outcome env s).1.messages =
      s.messages ++
        [⟨env.uidUser, Role.user, jsTrim (textArg.getD s.inputValue), env.tsUser⟩,
         ⟨env.uidBot, Role.assistant, "目前處於離線狀態，請檢查網路連線後再試一次", env.tsBot⟩] := by
  have hstart := sendTextStart_run clientId textArg env s hs hc
  simp only [sendText, hstart]
  cases outcome with
  | failure errMsg => simp [sendTextFinish, sendTextCatch]
  | response status statusText body =>
    simp only [fetchFailed, Bool.not_eq_true'] at hfail
    simp [sendTextFinish, sendTextCatch, hfail]

/-- C10 witness: a 404 received while offline yields the offline text,
not the 404 text. -/
theorem sendText_offline_message_witness :
    (AppState.isSending ⟨[], false, "", false⟩ = false) ∧
    jsTrim ((some "hi").getD "") ≠ "" ∧
    fetchFailed (.response 404 "Not Found" "nope") = true ∧
    (sendText "cid" (fun _ => none) false (some "hi")
        (.response 404 "Not Found" "nope") ⟨"u1", "b1", 0, 1⟩
        ⟨[], false, "", false⟩).1.messages =
      ([] : List ChatMessage) ++
        [⟨"u1", Role.user, jsTrim ((some "hi").getD ""), 0⟩,
         ⟨"b1", Role.assistant, "目前處於離線狀態，請檢查網路連線後再試一次", 1⟩] :=
  ⟨rfl, by decide, by decide,
    sendText_offline_message "cid" (fun _ => none) (some "hi")
      (.response 404 "Not Found" "nope") ⟨"u1", "b1", 0, 1⟩ ⟨[], false, "", false⟩
      rfl (by decide) (by decide)⟩

/-- C4 counterexample: for the object `{text: null}` the claim predicts
`String(null).trim()` — the non-empty string `"null"` — but the code's
`textContent !== null` sentinel treats a null `text` field as absent and
falls through to the JSON dump instead. -/
theorem extractBotReply_text_null_not_stringified :
    jsHasProp (.jobj [("text", JSValue.jnull)]) "text" = true ∧
    jsTrim (jsToString (jsGetProp (.jobj [("text", JSValue.jnull)]) "text")) = "null" ∧
    extractBotReply (.jobj [("text", JSValue.jnull)]) "" ≠ "null" := by
  refine ⟨rfl, rfl, ?_⟩
  decide

/-- C4 (amended): for every value `v` other than null, `extractBotReply`
applied to an object having a `text` field equal to `v` returns
`String(v)` trimmed of surrounding whitespace, or the rephrase fallback
text when the trimmed string is empty; the `text` field takes precedence
over any `message` field present. -/
theorem extractBotReply_text_field (entries : List (String × JSValue))
    (v : JSValue) (raw : String)
    (hhas : jsHasProp (.jobj entries) "text" = true)
    (hget : jsGetProp (.jobj entries) "text" = v)
    (hv : v ≠ JSValue.jnull) :
    extractBotReply (.jobj entries) raw =
      (if jsTrim (jsToString v) = "" then "請換個說法，謝謝您"
       else jsTrim (jsToString v)) := by
  unfold extractBotReply extractBotReplyE
  simp only [jsTruthy, jsTypeOf, hhas, hget, Bool.not_true, Bool.false_or, if_true]
  cases v with
  | jnull => exact absurd rfl hv
  | _ => rfl

/-- C4 witness (for the amended claim): the text field wins over a
message field and gets trimmed. -/
theorem extractBotReply_text_field_witness :
    jsHasProp (.jobj [("text", .jstr "  hi  "), ("message", .jstr "zzz")]) "text" = true ∧
    jsGetProp (.jobj [("text", .jstr "  hi  "), ("message", .jstr "zzz")]) "text" =
      JSValue.jstr "  hi  " ∧
    JSValue.jstr "  hi  " ≠ JSValue.jnull ∧
    extractBotReply (.jobj [("text", .jstr "  hi  "), ("message", .jstr "zzz")]) "raw" =
      (if jsTrim (jsToString (JSValue.jstr "  hi  ")) = "" then "請換個說法，謝謝您"
       else jsTrim (jsToString (JSValue.jstr "  hi  "))) :=
  ⟨rfl, rfl, fun h => JSValue.noConfusion h,
    extractBotReply_text_field [("text", .jstr "  hi  "), ("message", .jstr "zzz")]
      (JSValue.jstr "  hi  ") "raw" rfl rfl (fun h => JSValue.noConfusion h)⟩

/-- C5 counterexample: for `{error: 0}` the `error` property is present
(and the object has neither `text` nor `message` and a meaningful key),
yet the result is the JSON dump, not `String(0) = "0"`: the code tests
`data.error` for truthiness, not presence. -/
theorem extractBotReply_error_falsy_not_verbatim :
    jsHasProp (.jobj [("error", JSValue.jnum 0)]) "text" = false ∧
    jsHasProp (.jobj [("error", JSValue.jnum 0)]) "message" = false ∧
    ((jsOwnKeys (.jobj [("error", JSValue.jnum 0)])).filter
        (fun k => k != "clientId")).isEmpty = false ∧
    jsHasProp (.jobj [("error", JSValue.jnum 0)]) "error" = true ∧
    extractBotReply (.jobj [("error", JSValue.jnum 0)]) "" ≠
      jsToString (jsGetProp (.jobj [("error", JSValue.jnum 0)]) "error") := by
  refine ⟨rfl, rfl, rfl, rfl, ?_⟩
  decide

/-- C5 (amended): for every object `data` with neither a `text` nor a
`message` field and at least one key other than `clientId`, if its
`error` property is present with a truthy value then
`extractBotReply data raw` returns `String(data.error)` verbatim. -/
theorem extractBotReply_error_field (entries : List (String × JSValue))
    (raw : String)
    (hntext : jsHasProp (.jobj entries) "text" = false)
    (hnmsg : jsHasProp (.jobj entries) "message" = false)
    (hkeys : ((jsOwnKeys (.jobj entries)).filter (fun k => k != "clientId")).isEmpty = false)
    (herr : jsTruthy (jsGetProp (.jobj entries) "error") = true) :
    extractBotReply (.jobj entries) raw =
      jsToString (jsGetProp (.jobj entries) "error") := by
  unfold extractBotReply extractBotReplyE
  simp only [jsTruthy] at herr
  simp only [jsTruthy, jsTypeOf, hntext, hnmsg, hkeys, herr, Bool.not_true,
    Bool.false_or, bne_self_eq_false, if_false, if_true, Bool.false_eq_true]

/-- C5 witness (for the amended claim). -/
theorem extractBotReply_error_field_witness :
    jsHasProp (.jobj [("error", .jstr "bad input")]) "text" = false ∧
    jsHasProp (.jobj [("error", .jstr "bad input")]) "message" = false ∧
    ((jsOwnKeys (.jobj [("error", .jstr "bad input")])).filter
        (fun k => k != "clientId")).isEmpty = false ∧
    jsTruthy (jsGetProp (.jobj [("error", .jstr "bad input")]) "error") = true ∧
    extractBotReply (.jobj [("error", .jstr "bad input")]) "whatever" =
      jsToString (jsGetProp (.jobj [("error", .jstr "bad input")]) "error") :=
  ⟨rfl, rfl, rfl, by decide,
    extractBotReply_error_field [("error", .jstr "bad input")] "whatever"
      rfl rfl rfl (by decide)⟩

/-- C8: `extractBotReply` is total: for every input value and every `raw`
it produces a string and never lets an exception escape — even when the
JSON serialization step fails (the `stringify` parameter is arbitrary and
may fail on any value; the source's try/catch contains it). -/
theorem extractBotReplyE_never_throws
    (stringify : JSValue → Except String String) (data : JSValue) (raw : String) :
    ∃ s, extractBotReplyE stringify data raw = Except.ok s := by
  unfold extractBotReplyE
  cases data <;> simp only <;>
    (repeat' split) <;> exact ⟨_, rfl⟩

/-- C9: the result of `extractBotReply` depends only on its first
argument — the `raw` parameter is accepted but never consulted — so equal
`data` yields equal output for any pair of second arguments, and the
function is deterministic. -/
theorem extractBotReply_ignores_raw (data : JSValue) (raw1 raw2 : String) :
    extractBotReply data raw1 = extractBotReply data raw2 := rfl

end ChatApp
